import Mathlib

/-!
Shallow embedding of the doc_finder indexing and retrieval core
(src/indexer.py, src/data_loader.py, src/ai_app/query_engine.py).

Filesystem paths are modelled as lists of components; `os.path.join d n`
appends one component. The filesystem is a record of the existing file
paths, the existing directory paths, and the set of files whose deletion
fails with an OSError (modelling an `os.remove` failure). External
library boundaries (FAISS, PyPDFLoader, the LLM backend) are modelled at
their interface, as the spec prescribes for external collaborators.
-/

namespace DocFinder

/-- A filesystem path, as a list of components. -/
abbrev Path := List String

/-- langchain Document as used by this repository: text plus the
`source` metadata entry (the filename), which every Document built by
this code base carries. -/
structure Document where
  page_content : String
  source : String
deriving DecidableEq, Repr

/-- The Python exceptions this core raises: `ValueError msg` and
`OSError` (in Python 3, `IOError` is an alias of `OSError`). -/
inductive PyErr where
  | valueError (msg : String)
  | osError
deriving DecidableEq, Repr

/-- Filesystem state: existing files, existing directories, and the
files whose `os.remove` raises an OSError. -/
structure FS where
  files : List Path
  dirs : List Path
  stuck : List Path

def FS.fileIs (fs : FS) (p : Path) : Bool := fs.files.contains p

def FS.isDir (fs : FS) (p : Path) : Bool := fs.dirs.contains p

/-- os.path.exists: true for an existing file or directory. -/
def FS.pathExists (fs : FS) (p : Path) : Bool := fs.fileIs p || fs.isDir p

/-- Writing a file (an overwrite leaves the set of paths unchanged). -/
def FS.addFile (fs : FS) (p : Path) : FS :=
  if fs.files.contains p then fs else { fs with files := p :: fs.files }

/-- os.remove on an existing plain file. -/
def FS.removeFile (fs : FS) (p : Path) : FS :=
  { fs with files := fs.files.erase p }

/-- os.makedirs: creates the directory and all its ancestors. -/
def FS.makedirs (fs : FS) (d : Path) : FS :=
  { fs with dirs := d.inits ++ fs.dirs }

/-- Real-filesystem wellformedness: every strict prefix of an existing
path is an existing directory. -/
def FS.WF (fs : FS) : Prop :=
  ∀ p ∈ fs.files ++ fs.dirs, ∀ d ∈ p.inits, d ≠ p → d ∈ fs.dirs

instance (fs : FS) : Decidable fs.WF := by
  unfold FS.WF; infer_instance

/-- FAISS vectorstore boundary: the indexed documents, the similarity
score the embedding space assigns to a (query, document) pair, and the
queries on which the underlying search raises. The spec (§4.2) fixes
this interface: nearest-neighbor retrieval returns up to `k` results
ordered by decreasing similarity, and may fail. -/
structure VectorStore where
  docs : List Document
  score : String → Document → Int
  searchFails : String → Bool

/-- FAISS.similarity_search: top-`k` documents by decreasing score, or
a raised exception when the underlying search fails. -/
def VectorStore.similarity_search (vs : VectorStore) (q : String) (k : Nat) :
    Except PyErr (List Document) :=
  if vs.searchFails q then .error .osError
  else .ok ((vs.docs.insertionSort (fun a b => vs.score q b ≤ vs.score q a)).take k)

/-- Indexer state (src/indexer.py): `embedderOk` models the truthiness
of `self.embedder and self.embedder.model`; `vectorstore` is the
in-memory index handle, `none` in the Unloaded state. -/
structure Indexer where
  embedderOk : Bool
  index_directory : Path
  index_name : String
  vectorstore : Option VectorStore

/-- The `.faiss` artifact path: `os.path.join(index_directory, index_name) + ".faiss"`. -/
def Indexer.faissFile (idx : Indexer) : Path :=
  idx.index_directory ++ [idx.index_name ++ ".faiss"]

/-- The `.pkl` artifact path. -/
def Indexer.pklFile (idx : Indexer) : Path :=
  idx.index_directory ++ [idx.index_name ++ ".pkl"]

/-- Indexer.index_exists: directory is a dir and both artifact files exist. -/
def Indexer.index_exists (idx : Indexer) (fs : FS) : Bool :=
  fs.isDir idx.index_directory && fs.pathExists idx.faissFile
    && fs.pathExists idx.pklFile

/-- One arm of Indexer._remove_existing_index: if the path exists, try
`os.remove` (which raises when the file is stuck or the path is a
directory); a missing path is skipped. -/
def FS.removeOne (fs : FS) (p : Path) : Except PyErr Unit × FS :=
  if fs.pathExists p then
    if fs.stuck.contains p || fs.dirs.contains p then (.error .osError, fs)
    else (.ok (), fs.removeFile p)
  else (.ok (), fs)

/-- Indexer._remove_existing_index: remove the `.faiss` file then the
`.pkl` file; a raised OSError aborts (is re-raised), so a failure on the
first file leaves the second untouched. -/
def Indexer.removeExistingIndex (idx : Indexer) (fs : FS) :
    Except PyErr Unit × FS :=
  match fs.removeOne idx.faissFile with
  | (.error e, fs1) => (.error e, fs1)
  | (.ok _, fs1) => fs1.removeOne idx.pklFile

/-- Search environment: the oracles for the embedding space and for the
PDF directory contents, standing in for `config` and the external
libraries. -/
structure Env where
  score : String → Document → Int
  searchFails : String → Bool
  pdfDirectory : Path
  pdfListing : List String

/-- FAISS.from_documents at the interface boundary: an in-memory index
over the given documents in the ambient embedding space. -/
def fromDocuments (env : Env) (docs : List Document) : VectorStore :=
  { docs := docs, score := env.score, searchFails := env.searchFails }

/-- Indexer.save_index: ValueError when no vectorstore is held;
otherwise ensure the index directory exists and write both artifact
files (FAISS.save_local). -/
def Indexer.save_index (idx : Indexer) (fs : FS) : Except PyErr Unit × FS :=
  match idx.vectorstore with
  | none => (.error (.valueError "Vectorstore not created, cannot save."), fs)
  | some _ =>
    let fs1 := if fs.pathExists idx.index_directory then fs
               else fs.makedirs idx.index_directory
    (.ok (), (fs1.addFile idx.faissFile).addFile idx.pklFile)

/-- Indexer.create_n_save_index: ValueError on an empty document list or
an unusable embedder; otherwise ensure the directory, build the
vectorstore in memory and save it immediately. -/
def Indexer.create_n_save_index (idx : Indexer) (env : Env) (fs : FS)
    (documents : List Document) : Except PyErr Unit × (Indexer × FS) :=
  if documents.isEmpty then
    (.error (.valueError "No documents provided to create index."), (idx, fs))
  else if !idx.embedderOk then
    (.error (.valueError "Embedder not properly initialized."), (idx, fs))
  else
    let fs1 := if fs.pathExists idx.index_directory then fs
               else fs.makedirs idx.index_directory
    let idx1 := { idx with vectorstore := some (fromDocuments env documents) }
    match idx1.save_index fs1 with
    | (.error e, fs2) => (.error e, (idx1, fs2))
    | (.ok _, fs2) => (.ok (), (idx1, fs2))

/-- Indexer.search: ValueError when no vectorstore is loaded or created;
otherwise run the similarity search and convert any raised failure into
an empty result list. -/
def Indexer.search (idx : Indexer) (q : String) (k : Nat) :
    Except PyErr (List Document) :=
  match idx.vectorstore with
  | none => .error (.valueError "Index not loaded or created.")
  | some vs =>
    match vs.similarity_search q k with
    | .ok results => .ok results
    | .error _ => .ok []

/-- Outcome of `PyPDFLoader(filepath).load()` for one file at the
external PDF-parsing boundary: a raised exception, or the per-page
extracted texts. -/
inductive ExtractOutcome where
  | failed
  | pages (ps : List String)

/-- Python str.lower. -/
def pyLower (s : String) : String := ⟨s.data.map Char.toLower⟩

/-- Python str.endswith. -/
def strEndsWith (s post : String) : Bool := post.data.isSuffixOf s.data

/-- Python sep.join(parts). -/
def pyJoin (sep : String) (parts : List String) : String :=
  match parts with
  | [] => ""
  | p :: ps => ps.foldl (fun acc q => acc ++ sep ++ q) p

/-- Python str.strip (leading and trailing whitespace removed). -/
def pyStrip (s : String) : String :=
  ⟨((s.data.dropWhile Char.isWhitespace).reverse.dropWhile Char.isWhitespace).reverse⟩

/-- Case-insensitive .pdf extension test: `filename.lower().endswith(".pdf")`. -/
def isPdfName (filename : String) : Bool :=
  strEndsWith (pyLower filename) ".pdf"

/-- The loop body of DataLoader.load_pdfs for one directory entry
(src/data_loader.py lines 34-67): non-PDF names are not processed; a
PDF is loaded with PyPDFLoader (an exception is logged and the file
skipped), skipped when it yields no pages, its non-empty page contents
are joined with a newline, and it is skipped when the joined text strips
to nothing; a survivor becomes one Document whose metadata source is the
filename. -/
def processPdfFile (extractOf : String → ExtractOutcome) (filename : String) :
    Option Document :=
  if isPdfName filename then
    match extractOf filename with
    | .failed => none
    | .pages ps =>
      if ps.isEmpty then none
      else
        if pyStrip (pyJoin "\n" (ps.filter (fun p => p ≠ ""))) = "" then none
        else some { page_content := pyJoin "\n" (ps.filter (fun p => p ≠ "")),
                    source := filename }
  else none

/-- DataLoader.load_pdfs over a directory listing: each entry is
processed independently, survivors are collected in listing order. -/
def load_pdfs (extractOf : String → ExtractOutcome) (listing : List String) :
    List Document :=
  listing.filterMap (processPdfFile extractOf)

/-- Eligibility test of Indexer.rebuild_index line 175:
`any(f.lower().endswith(".pdf") for f in os.listdir(PDF_DIRECTORY))`. -/
def anyEligiblePdf (listing : List String) : Bool :=
  listing.any isPdfName

/-- The try-block of Indexer.rebuild_index (src/indexer.py lines
170-191): remove existing artifacts, fail (False) when the PDF
directory is missing or holds no PDF, load the documents, fail (False)
when none were processed, otherwise create and save the new index. A
`.error` outcome is an exception reaching the try-block boundary. -/
def Indexer.rebuildBody (idx : Indexer) (env : Env)
    (extractOf : String → ExtractOutcome) (fs : FS) :
    Except PyErr Bool × (Indexer × FS) :=
  match idx.removeExistingIndex fs with
  | (.error e, fs1) => (.error e, (idx, fs1))
  | (.ok _, fs1) =>
    if !fs1.isDir env.pdfDirectory || !anyEligiblePdf env.pdfListing then
      (.ok false, (idx, fs1))
    else
      let documents := load_pdfs extractOf env.pdfListing
      if documents.isEmpty then (.ok false, (idx, fs1))
      else
        match idx.create_n_save_index env fs1 documents with
        | (.error e, s) => (.error e, s)
        | (.ok _, s) => (.ok true, s)

/-- Indexer.rebuild_index: the try-block with every exception caught and
converted to a False outcome (src/indexer.py lines 193-201), so the
caller always receives a boolean. -/
def Indexer.rebuild_index (idx : Indexer) (env : Env)
    (extractOf : String → ExtractOutcome) (fs : FS) :
    Bool × (Indexer × FS) :=
  match idx.rebuildBody env extractOf fs with
  | (.error _, s) => (false, s)
  | (.ok b, s) => (b, s)

/-- QueryEngine (src/ai_app/query_engine.py): the indexer plus the LLM
boundary, `llmRespond` giving the text of
`self.llm_handler.generate_response(prompt)`. -/
structure QueryEngine where
  indexer : Indexer
  llmRespond : String → String

/-- QueryEngine.get_relevant_docs: ValueError when the indexer holds no
vectorstore; otherwise `indexer.search(query)` with its default k = 2,
any unexpected exception converted to an empty list. -/
def QueryEngine.get_relevant_docs (qe : QueryEngine) (query : String) :
    Except PyErr (List Document) :=
  match qe.indexer.vectorstore with
  | none => .error (.valueError "Index not loaded or created.")
  | some _ =>
    match qe.indexer.search query 2 with
    | .ok docs => .ok docs
    | .error _ => .ok []

/-- The fixed reply when search yields no results. -/
def noRelevantMsg : String :=
  "I could not find any PDF files in the index that seem relevant to your query."

/-- The reply when the ValueError of an unloaded index is caught. -/
def indexUnavailableMsg : String :=
  "Error: The document index is not available. Please ensure it has been created or loaded."

/-- The reply of the catch-all handler of QueryEngine.query. -/
def unexpectedErrorMsg : String :=
  "An unexpected error occurred while processing your query."

/-- Python sorted(list(set(l))) on strings: the distinct elements in
lexicographic order. -/
def pySortedSet (l : List String) : List String :=
  l.dedup.insertionSort (fun a b => a ≤ b)

/-- The prompt of QueryEngine.query (lines 70-75), interpolating the
deduplicated sorted filename list and the user query. -/
def promptFor (userQuery : String) (uniqueFilenames : List String) : String :=
  "Based on the user\u0027s query and an analysis of the content of available PDF documents, the following PDF files were identified as potentially relevant:\n"
    ++ "                        Potentially Relevant PDF Filenames:\n"
    ++ "                        - " ++ pyJoin "\n- " uniqueFilenames ++ "\n"
    ++ "                        User Query: \"" ++ userQuery ++ "\"\n"
    ++ "                        Please analyze the user\u0027s query and the list of filenames. Suggest which of these PDF files the user should look into to find the information they are seeking. Explain briefly why each suggested file might be relevant, if possible. If none seem particularly relevant despite being listed, state that. Be concise.\n"
    ++ "                        Suggested files to check:"

/-- The candidate-list block prepended to the final answer (lines 83-84). -/
def candidateBlock (uniqueFilenames : List String) : String :=
  "Based on your query, the following PDF files might contain relevant information:\n- "
    ++ pyJoin "\n- " uniqueFilenames ++ "\n\n"

/-- The final response of QueryEngine.query in the non-empty case: the
candidate list, then the stripped LLM suggestion (lines 83-85). -/
def finalResponse (uniqueFilenames : List String) (respText : String) : String :=
  candidateBlock uniqueFilenames ++ "LLM Suggestion:\n" ++ pyStrip respText

/-- QueryEngine.query: returns the user-facing reply together with the
list of prompts sent to the LLM backend (empty when the completion
service was never called). ValueError from an unloaded index and any
other exception are caught at this boundary (lines 88-93). -/
def QueryEngine.query (qe : QueryEngine) (userQuery : String) :
    String × List String :=
  match qe.get_relevant_docs userQuery with
  | .error (.valueError _) => (indexUnavailableMsg, [])
  | .error _ => (unexpectedErrorMsg, [])
  | .ok [] => (noRelevantMsg, [])
  | .ok (d :: ds) =>
    let relevantFilenames := (d :: ds).map (fun doc => doc.source)
    let uniqueFilenames := pySortedSet relevantFilenames
    let prompt := promptFor userQuery uniqueFilenames
    let respText := qe.llmRespond prompt
    (finalResponse uniqueFilenames respText, [prompt])

/-! Concrete instances used by the witnesses. -/

/-- An engine in the Unloaded state (no vectorstore handle). -/
def idxUnloaded : Indexer :=
  { embedderOk := true, index_directory := ["index"],
    index_name := "faiss_index", vectorstore := none }

/-- A sample document. -/
def docA : Document := { page_content := "The quick brown fox", source := "a.pdf" }

/-- Another sample document. -/
def docB : Document := { page_content := "Quantum entanglement", source := "b.pdf" }

/-- A loaded vectorstore over two documents whose search never fails. -/
def vsAB : VectorStore :=
  { docs := [docA, docB], score := fun _ _ => 0, searchFails := fun _ => false }

/-- A loaded vectorstore over no documents. -/
def vsEmpty : VectorStore :=
  { docs := [], score := fun _ _ => 0, searchFails := fun _ => false }

/-- An engine in the Loaded state over `vsAB`. -/
def idxLoadedAB : Indexer :=
  { embedderOk := true, index_directory := ["index"],
    index_name := "faiss_index", vectorstore := some vsAB }

/-- An engine in the Loaded state over an empty index. -/
def idxLoadedEmpty : Indexer :=
  { embedderOk := true, index_directory := ["index"],
    index_name := "faiss_index", vectorstore := some vsEmpty }

/-- A query engine over the unloaded indexer. -/
def qeUnloaded : QueryEngine :=
  { indexer := idxUnloaded, llmRespond := fun _ => "Check a.pdf." }

/-- A query engine over the loaded two-document indexer. -/
def qeLoadedAB : QueryEngine :=
  { indexer := idxLoadedAB, llmRespond := fun _ => "Check a.pdf." }

/-- A query engine over the loaded empty indexer. -/
def qeLoadedEmpty : QueryEngine :=
  { indexer := idxLoadedEmpty, llmRespond := fun _ => "Check a.pdf." }

/-! Shared helper lemmas. -/

/-- removeOne on a present stuck file raises. -/
theorem FS.removeOne_pos_stuck (fs : FS) (p : Path)
    (h1 : fs.pathExists p = true) (h2 : p ∈ fs.stuck) :
    fs.removeOne p = (.error .osError, fs) := by
  simp [FS.removeOne, h1, h2]

/-- removeOne on a present removable plain file deletes it. -/
theorem FS.removeOne_pos_ok (fs : FS) (p : Path)
    (h1 : fs.pathExists p = true) (h2 : p ∉ fs.stuck) (h3 : p ∉ fs.dirs) :
    fs.removeOne p = (.ok (), fs.removeFile p) := by
  simp [FS.removeOne, h1, h2, h3]

/-- removeOne on a missing path is a no-op. -/
theorem FS.removeOne_neg (fs : FS) (p : Path) (h1 : fs.pathExists p = false) :
    fs.removeOne p = (.ok (), fs) := by
  simp [FS.removeOne, h1]

/-- The two artifact paths differ (their last components have different
lengths). -/
theorem Indexer.faissFile_ne_pklFile (idx : Indexer) :
    idx.faissFile ≠ idx.pklFile := by
  unfold Indexer.faissFile Indexer.pklFile
  intro h
  have h1 : [idx.index_name ++ ".faiss"] = [idx.index_name ++ ".pkl"] :=
    List.append_cancel_left h
  have h2 : idx.index_name ++ ".faiss" = idx.index_name ++ ".pkl" :=
    List.head_eq_of_cons_eq h1
  have h3 := congrArg String.length h2
  simp [String.length_append] at h3
  exact absurd h3 (by decide)

/-- A path extended by one component is not among the prefixes of the
original path. -/
theorem append_singleton_not_mem_inits (l : Path) (a : String) :
    l ++ [a] ∉ l.inits := by
  intro hmem
  have hpre := (List.mem_inits _ _).mp hmem
  have := hpre.length_le
  simp at this

/-- addFile leaves the directories unchanged. -/
theorem FS.addFile_dirs (fs : FS) (p : Path) : (fs.addFile p).dirs = fs.dirs := by
  unfold FS.addFile; split <;> rfl

/-- addFile leaves the stuck set unchanged. -/
theorem FS.addFile_stuck (fs : FS) (p : Path) : (fs.addFile p).stuck = fs.stuck := by
  unfold FS.addFile; split <;> rfl

/-- addFile of a new file prepends it. -/
theorem FS.addFile_files_of_not_mem (fs : FS) (p : Path) (h : p ∉ fs.files) :
    (fs.addFile p).files = p :: fs.files := by
  simp [FS.addFile, h]

/-- Building the index on a filesystem where the directory exists and
neither artifact is present makes `index_exists` true, and the
subsequent removal succeeds and makes it false again. -/
theorem create_then_remove_aux (idx : Indexer) (fs1 : FS)
    (hF : idx.faissFile ∉ fs1.files) (hP : idx.pklFile ∉ fs1.files)
    (hFd : idx.faissFile ∉ fs1.dirs) (hPd : idx.pklFile ∉ fs1.dirs)
    (hFs : idx.faissFile ∉ fs1.stuck) (hPs : idx.pklFile ∉ fs1.stuck)
    (hDdir : idx.index_directory ∈ fs1.dirs) :
    idx.index_exists ((fs1.addFile idx.faissFile).addFile idx.pklFile) = true ∧
    idx.removeExistingIndex ((fs1.addFile idx.faissFile).addFile idx.pklFile)
      = (.ok (), (((fs1.addFile idx.faissFile).addFile idx.pklFile).removeFile
          idx.faissFile).removeFile idx.pklFile) ∧
    idx.index_exists ((((fs1.addFile idx.faissFile).addFile idx.pklFile).removeFile
        idx.faissFile).removeFile idx.pklFile) = false := by
  have hne := idx.faissFile_ne_pklFile
  have h1 : (fs1.addFile idx.faissFile).files = idx.faissFile :: fs1.files :=
    FS.addFile_files_of_not_mem _ _ hF
  have h2 : idx.pklFile ∉ (fs1.addFile idx.faissFile).files := by
    rw [h1]; simp [hP, Ne.symm hne]
  have hfiles2 : ((fs1.addFile idx.faissFile).addFile idx.pklFile).files
      = idx.pklFile :: idx.faissFile :: fs1.files := by
    rw [FS.addFile_files_of_not_mem _ _ h2, h1]
  have hdirs2 : ((fs1.addFile idx.faissFile).addFile idx.pklFile).dirs = fs1.dirs := by
    rw [FS.addFile_dirs, FS.addFile_dirs]
  have hstuck2 : ((fs1.addFile idx.faissFile).addFile idx.pklFile).stuck = fs1.stuck := by
    rw [FS.addFile_stuck, FS.addFile_stuck]
  have hfiles3 : (((fs1.addFile idx.faissFile).addFile idx.pklFile).removeFile
      idx.faissFile).files = idx.pklFile :: fs1.files := by
    simp [FS.removeFile, hfiles2, List.erase_cons, Ne.symm hne]
  have hfiles4 : ((((fs1.addFile idx.faissFile).addFile idx.pklFile).removeFile
      idx.faissFile).removeFile idx.pklFile).files = fs1.files := by
    simp only [FS.removeFile]
    rw [hfiles2]
    simp [List.erase_cons, Ne.symm hne]
  refine ⟨?_, ?_, ?_⟩
  · simp [Indexer.index_exists, FS.pathExists, FS.fileIs, FS.isDir,
      hfiles2, hdirs2, hDdir]
  · have hFpe2 : ((fs1.addFile idx.faissFile).addFile idx.pklFile).pathExists
        idx.faissFile = true := by
      simp [FS.pathExists, FS.fileIs, hfiles2]
    have hFs2 : idx.faissFile ∉ ((fs1.addFile idx.faissFile).addFile idx.pklFile).stuck := by
      rw [hstuck2]; exact hFs
    have hFd2 : idx.faissFile ∉ ((fs1.addFile idx.faissFile).addFile idx.pklFile).dirs := by
      rw [hdirs2]; exact hFd
    have hPpe3 : ((((fs1.addFile idx.faissFile).addFile idx.pklFile).removeFile
        idx.faissFile)).pathExists idx.pklFile = true := by
      simp [FS.pathExists, FS.fileIs, hfiles3]
    have hPs3 : idx.pklFile ∉ ((((fs1.addFile idx.faissFile).addFile
        idx.pklFile).removeFile idx.faissFile)).stuck := by
      show idx.pklFile ∉ ((fs1.addFile idx.faissFile).addFile idx.pklFile).stuck
      rw [hstuck2]; exact hPs
    have hPd3 : idx.pklFile ∉ ((((fs1.addFile idx.faissFile).addFile
        idx.pklFile).removeFile idx.faissFile)).dirs := by
      show idx.pklFile ∉ ((fs1.addFile idx.faissFile).addFile idx.pklFile).dirs
      rw [hdirs2]; exact hPd
    unfold Indexer.removeExistingIndex
    rw [FS.removeOne_pos_ok _ _ hFpe2 hFs2 hFd2]
    change ((((fs1.addFile idx.faissFile).addFile idx.pklFile).removeFile
      idx.faissFile)).removeOne idx.pklFile = _
    rw [FS.removeOne_pos_ok _ _ hPpe3 hPs3 hPd3]
  · have hdirs4 : ((((fs1.addFile idx.faissFile).addFile idx.pklFile).removeFile
        idx.faissFile).removeFile idx.pklFile).dirs = fs1.dirs := by
      show ((fs1.addFile idx.faissFile).addFile idx.pklFile).dirs = fs1.dirs
      exact hdirs2
    simp [Indexer.index_exists, FS.pathExists, FS.fileIs, FS.isDir,
      hfiles4, hdirs4, hF, hFd]

/-! Claim theorems. -/

/-- C1: for every query string and every engine state in which no index
is loaded or created (the vectorstore handle is absent), `search` fails
with the StateError of the taxonomy — the ValueError with message
"Index not loaded or created." — and never returns a result sequence. -/
theorem search_unloaded_state_error (idx : Indexer) (q : String) (k : Nat)
    (h : idx.vectorstore = none) :
    idx.search q k = .error (.valueError "Index not loaded or created.") ∧
    ∀ results : List Document, idx.search q k ≠ .ok results := by
  have hsearch : idx.search q k = .error (.valueError "Index not loaded or created.") := by
    simp [Indexer.search, h]
  exact ⟨hsearch, fun results hc => by rw [hsearch] at hc; cases hc⟩

/-- Witness for C1 at a concrete unloaded engine. -/
theorem search_unloaded_state_error_witness :
    idxUnloaded.search "animal behavior" 2
        = .error (.valueError "Index not loaded or created.") ∧
    idxUnloaded.search "animal behavior" 2 ≠ .ok [] :=
  ⟨(search_unloaded_state_error idxUnloaded "animal behavior" 2 rfl).1,
   (search_unloaded_state_error idxUnloaded "animal behavior" 2 rfl).2 []⟩

/-- C3: for every query and every k, `search` on a Loaded engine
returns a result list of length at most k; when the underlying
nearest-neighbor search raises, and likewise when the index holds no
documents (nothing matches), the result is the empty sequence and no
exception propagates. -/
theorem search_loaded_at_most_k (idx : Indexer) (vs : VectorStore)
    (q : String) (k : Nat) (h : idx.vectorstore = some vs) :
    (∃ results, idx.search q k = .ok results ∧ results.length ≤ k) ∧
    (vs.searchFails q = true → idx.search q k = .ok []) ∧
    (vs.docs = [] → idx.search q k = .ok []) := by
  by_cases hf : vs.searchFails q = true
  · have hs : idx.search q k = .ok [] := by
      simp [Indexer.search, h, VectorStore.similarity_search, hf]
    exact ⟨⟨[], hs, by simp⟩, fun _ => hs, fun _ => hs⟩
  · have hs : idx.search q k
        = .ok ((vs.docs.insertionSort (fun a b => vs.score q b ≤ vs.score q a)).take k) := by
      simp [Indexer.search, h, VectorStore.similarity_search, hf]
    refine ⟨⟨_, hs, ?_⟩, fun hc => absurd hc hf, fun hd => ?_⟩
    · simp
    · rw [hs, hd]; simp

/-- Witness for C3 at a concrete loaded engine. -/
theorem search_loaded_at_most_k_witness :
    (∃ results, idxLoadedAB.search "animal behavior" 2 = .ok results
        ∧ results.length ≤ 2) ∧
    (vsAB.searchFails "animal behavior" = true →
        idxLoadedAB.search "animal behavior" 2 = .ok []) ∧
    (vsAB.docs = [] → idxLoadedAB.search "animal behavior" 2 = .ok []) :=
  search_loaded_at_most_k idxLoadedAB vsAB "animal behavior" 2 rfl

/-- C6: for every query, invoking the orchestrator while the Index
Engine holds no vectorstore surfaces the StateError: the inner
retrieval raises the ValueError "Index not loaded or created.", the
user-facing reply is the fixed index-unavailable error report with no
completion-service call, and that reply is neither empty nor the
no-relevant-documents answer. -/
theorem query_unloaded_reports_state_error (qe : QueryEngine) (q : String)
    (h : qe.indexer.vectorstore = none) :
    qe.get_relevant_docs q = .error (.valueError "Index not loaded or created.") ∧
    qe.query q = (indexUnavailableMsg, []) ∧
    indexUnavailableMsg ≠ noRelevantMsg ∧
    indexUnavailableMsg ≠ "" := by
  have h1 : qe.get_relevant_docs q
      = .error (.valueError "Index not loaded or created.") := by
    simp [QueryEngine.get_relevant_docs, h]
  refine ⟨h1, ?_, by decide, by decide⟩
  simp [QueryEngine.query, h1]

/-- Witness for C6 at a concrete unloaded orchestrator. -/
theorem query_unloaded_reports_state_error_witness :
    qeUnloaded.get_relevant_docs "animal behavior"
        = .error (.valueError "Index not loaded or created.") ∧
    qeUnloaded.query "animal behavior" = (indexUnavailableMsg, []) ∧
    indexUnavailableMsg ≠ noRelevantMsg ∧
    indexUnavailableMsg ≠ "" :=
  query_unloaded_reports_state_error qeUnloaded "animal behavior" rfl

/-- C7: for every query against a Loaded engine whose search yields
zero results, the orchestrator returns the fixed no-relevant-documents
message and sends no prompt to the completion service. -/
theorem query_no_results_fixed_message (qe : QueryEngine) (q : String)
    (vs : VectorStore) (h : qe.indexer.vectorstore = some vs)
    (hs : qe.indexer.search q 2 = .ok []) :
    qe.query q = (noRelevantMsg, []) := by
  have h1 : qe.get_relevant_docs q = .ok [] := by
    simp [QueryEngine.get_relevant_docs, h, hs]
  simp [QueryEngine.query, h1]

/-- Witness for C7 at a concrete loaded engine over an empty index. -/
theorem query_no_results_fixed_message_witness :
    qeLoadedEmpty.query "animal behavior" = (noRelevantMsg, []) :=
  query_no_results_fixed_message qeLoadedEmpty "animal behavior" vsEmpty rfl rfl

/-- C8: for every query whose search yields a non-empty result list,
the orchestrator builds its prompt from the deduplicated,
lexicographically sorted source filenames (the candidate list is sorted,
duplicate-free and holds exactly the returned sources), and the final
answer prepends that candidate list ahead of whatever text the
completion service returns. -/
theorem query_nonempty_dedup_sort_prepend (qe : QueryEngine) (q : String)
    (vs : VectorStore) (docs : List Document)
    (h : qe.indexer.vectorstore = some vs)
    (hs : qe.indexer.search q 2 = .ok docs) (hne : docs ≠ []) :
    (qe.query q).2 = [promptFor q (pySortedSet (docs.map (fun d => d.source)))] ∧
    (qe.query q).1 = finalResponse (pySortedSet (docs.map (fun d => d.source)))
        (qe.llmRespond (promptFor q (pySortedSet (docs.map (fun d => d.source))))) ∧
    (pySortedSet (docs.map (fun d => d.source))).Sorted (fun a b => a ≤ b) ∧
    (pySortedSet (docs.map (fun d => d.source))).Nodup ∧
    (∀ s, s ∈ pySortedSet (docs.map (fun d => d.source))
        ↔ s ∈ docs.map (fun d => d.source)) ∧
    (∀ r, ∃ t, finalResponse (pySortedSet (docs.map (fun d => d.source))) r
        = candidateBlock (pySortedSet (docs.map (fun d => d.source))) ++ t) := by
  obtain ⟨d, ds, rfl⟩ : ∃ d ds, docs = d :: ds := by
    cases docs with
    | nil => exact absurd rfl hne
    | cons d ds => exact ⟨d, ds, rfl⟩
  have h1 : qe.get_relevant_docs q = .ok (d :: ds) := by
    simp [QueryEngine.get_relevant_docs, h, hs]
  refine ⟨?_, ?_, ?_, ?_, ?_, ?_⟩
  · simp [QueryEngine.query, h1]
  · simp [QueryEngine.query, h1]
  · exact List.sorted_insertionSort _ _
  · exact ((List.perm_insertionSort _ _).nodup_iff).mpr (List.nodup_dedup _)
  · intro s
    exact ((List.perm_insertionSort _ _).mem_iff).trans (List.mem_dedup)
  · intro r
    exact ⟨"LLM Suggestion:\n" ++ pyStrip r, by
      simp [finalResponse, String.append_assoc]⟩

/-- Witness for C8 at a concrete loaded engine returning both documents. -/
theorem query_nonempty_dedup_sort_prepend_witness :
    (qeLoadedAB.query "animal behavior").2
        = [promptFor "animal behavior" (pySortedSet ([docA, docB].map (fun d => d.source)))] ∧
    (qeLoadedAB.query "animal behavior").1
        = finalResponse (pySortedSet ([docA, docB].map (fun d => d.source)))
            (qeLoadedAB.llmRespond (promptFor "animal behavior"
              (pySortedSet ([docA, docB].map (fun d => d.source))))) ∧
    (pySortedSet ([docA, docB].map (fun d => d.source))).Sorted (fun a b => a ≤ b) ∧
    (pySortedSet ([docA, docB].map (fun d => d.source))).Nodup := by
  have hmain := query_nonempty_dedup_sort_prepend qeLoadedAB "animal behavior"
    vsAB [docA, docB] rfl rfl (by simp)
  exact ⟨hmain.1, hmain.2.1, hmain.2.2.1, hmain.2.2.2.1⟩

/-- C4: for every index location, `index_exists` is true exactly when
both artifact files (the .faiss vector structure and the .pkl
metadata/docstore) are present, on any wellformed filesystem (one where
each existing path lies under existing directories); in particular the
presence of only one of the two files reports false. -/
theorem index_exists_iff_both_files (idx : Indexer) (fs : FS) (hwf : fs.WF) :
    idx.index_exists fs = true ↔
      (fs.pathExists idx.faissFile = true ∧ fs.pathExists idx.pklFile = true) := by
  constructor
  · intro hex
    simp only [Indexer.index_exists, Bool.and_eq_true] at hex
    exact ⟨hex.1.2, hex.2⟩
  · rintro ⟨hf, hp⟩
    have hmem : idx.faissFile ∈ fs.files ∨ idx.faissFile ∈ fs.dirs := by
      simpa [FS.pathExists, FS.fileIs, FS.isDir] using hf
    have hmem2 : idx.faissFile ∈ fs.files ++ fs.dirs := List.mem_append.mpr hmem
    have hpre : idx.index_directory ∈ idx.faissFile.inits :=
      (List.mem_inits _ _).mpr (List.prefix_append _ _)
    have hne : idx.index_directory ≠ idx.faissFile := by
      intro hcontra
      have := congrArg List.length hcontra
      simp [Indexer.faissFile] at this
    have hd : idx.index_directory ∈ fs.dirs := hwf _ hmem2 _ hpre hne
    simp [Indexer.index_exists, FS.isDir, hd, hf, hp]

/-- C2: for every index location on a filesystem where no build or
persist has yet placed either artifact (both artifact paths absent, and
the location not squatted by a file), `index_exists` is false; a build
followed by its immediate persist (create_n_save_index) succeeds and
makes `index_exists` true; and a subsequent removal succeeds and makes
`index_exists` false again. -/
theorem exists_false_after_build_true_after_remove_false (idx : Indexer)
    (env : Env) (fs : FS) (documents : List Document)
    (hdocs : documents ≠ []) (hemb : idx.embedderOk = true)
    (hF : idx.faissFile ∉ fs.files) (hP : idx.pklFile ∉ fs.files)
    (hFd : idx.faissFile ∉ fs.dirs) (hPd : idx.pklFile ∉ fs.dirs)
    (hD : idx.index_directory ∉ fs.files)
    (hFs : idx.faissFile ∉ fs.stuck) (hPs : idx.pklFile ∉ fs.stuck) :
    idx.index_exists fs = false ∧
    (idx.create_n_save_index env fs documents).1 = .ok () ∧
    idx.index_exists (idx.create_n_save_index env fs documents).2.2 = true ∧
    (idx.removeExistingIndex (idx.create_n_save_index env fs documents).2.2).1
      = .ok () ∧
    idx.index_exists
      (idx.removeExistingIndex (idx.create_n_save_index env fs documents).2.2).2
      = false := by
  have hde : documents.isEmpty = false := by
    cases documents with
    | nil => exact absurd rfl hdocs
    | cons a l => rfl
  have h0 : idx.index_exists fs = false := by
    simp [Indexer.index_exists, FS.pathExists, FS.fileIs, FS.isDir, hF, hFd]
  by_cases hDpe : fs.pathExists idx.index_directory = true
  · have hDdir : idx.index_directory ∈ fs.dirs := by
      have h := hDpe
      simp [FS.pathExists, FS.fileIs, FS.isDir, hD] at h
      exact h
    have hstep : idx.create_n_save_index env fs documents
        = (.ok (), ({ idx with vectorstore := some (fromDocuments env documents) },
            (fs.addFile idx.faissFile).addFile idx.pklFile)) := by
      simp [Indexer.create_n_save_index, Indexer.save_index, Indexer.faissFile, Indexer.pklFile, hde, hemb, hDpe]
    obtain ⟨h3, h4, h5⟩ :=
      create_then_remove_aux idx fs hF hP hFd hPd hFs hPs hDdir
    refine ⟨h0, by rw [hstep], by rw [hstep]; exact h3, ?_, ?_⟩
    · rw [hstep]
      show (idx.removeExistingIndex ((fs.addFile idx.faissFile).addFile idx.pklFile)).1
        = .ok ()
      rw [h4]
    · rw [hstep]
      show idx.index_exists
        (idx.removeExistingIndex ((fs.addFile idx.faissFile).addFile idx.pklFile)).2
        = false
      rw [h4]
      exact h5
  · have hD1pe : (fs.makedirs idx.index_directory).pathExists idx.index_directory
        = true := by
      simp [FS.makedirs, FS.pathExists, FS.isDir, List.mem_inits]
    have hstep : idx.create_n_save_index env fs documents
        = (.ok (), ({ idx with vectorstore := some (fromDocuments env documents) },
            ((fs.makedirs idx.index_directory).addFile idx.faissFile).addFile
              idx.pklFile)) := by
      simp [Indexer.create_n_save_index, Indexer.save_index, Indexer.faissFile, Indexer.pklFile, hde, hemb, hDpe, hD1pe]
    have hF1 : idx.faissFile ∉ (fs.makedirs idx.index_directory).files := hF
    have hP1 : idx.pklFile ∉ (fs.makedirs idx.index_directory).files := hP
    have hFd1 : idx.faissFile ∉ (fs.makedirs idx.index_directory).dirs := by
      show idx.faissFile ∉ idx.index_directory.inits ++ fs.dirs
      intro h
      rcases List.mem_append.mp h with h | h
      · exact append_singleton_not_mem_inits idx.index_directory _ h
      · exact hFd h
    have hPd1 : idx.pklFile ∉ (fs.makedirs idx.index_directory).dirs := by
      show idx.pklFile ∉ idx.index_directory.inits ++ fs.dirs
      intro h
      rcases List.mem_append.mp h with h | h
      · exact append_singleton_not_mem_inits idx.index_directory _ h
      · exact hPd h
    have hFs1 : idx.faissFile ∉ (fs.makedirs idx.index_directory).stuck := hFs
    have hPs1 : idx.pklFile ∉ (fs.makedirs idx.index_directory).stuck := hPs
    have hDdir1 : idx.index_directory ∈ (fs.makedirs idx.index_directory).dirs := by
      show idx.index_directory ∈ idx.index_directory.inits ++ fs.dirs
      exact List.mem_append.mpr (.inl ((List.mem_inits _ _).mpr (List.prefix_refl _)))
    obtain ⟨h3, h4, h5⟩ :=
      create_then_remove_aux idx (fs.makedirs idx.index_directory)
        hF1 hP1 hFd1 hPd1 hFs1 hPs1 hDdir1
    refine ⟨h0, by rw [hstep], by rw [hstep]; exact h3, ?_, ?_⟩
    · rw [hstep]
      show (idx.removeExistingIndex (((fs.makedirs idx.index_directory).addFile
        idx.faissFile).addFile idx.pklFile)).1 = .ok ()
      rw [h4]
    · rw [hstep]
      show idx.index_exists (idx.removeExistingIndex
        (((fs.makedirs idx.index_directory).addFile idx.faissFile).addFile
          idx.pklFile)).2 = false
      rw [h4]
      exact h5

/-- The search environment of the C2 witness. -/
def envSample : Env :=
  { score := fun _ _ => 0, searchFails := fun _ => false,
    pdfDirectory := ["pdfs"], pdfListing := ["a.pdf", "b.pdf"] }

/-- A fresh filesystem holding only the root directory. -/
def fsFresh : FS := { files := [], dirs := [[]], stuck := [] }

/-- Witness for C2 at a fresh concrete filesystem. -/
theorem exists_false_after_build_true_after_remove_false_witness :
    idxUnloaded.index_exists fsFresh = false ∧
    (idxUnloaded.create_n_save_index envSample fsFresh [docA]).1 = .ok () ∧
    idxUnloaded.index_exists
      (idxUnloaded.create_n_save_index envSample fsFresh [docA]).2.2 = true ∧
    (idxUnloaded.removeExistingIndex
      (idxUnloaded.create_n_save_index envSample fsFresh [docA]).2.2).1 = .ok () ∧
    idxUnloaded.index_exists
      (idxUnloaded.removeExistingIndex
        (idxUnloaded.create_n_save_index envSample fsFresh [docA]).2.2).2 = false :=
  exists_false_after_build_true_after_remove_false idxUnloaded envSample fsFresh
    [docA] (by decide) rfl (by decide) (by decide) (by decide) (by decide)
    (by decide) (by decide) (by decide)

/-- A wellformed filesystem holding both artifact files. -/
def fsBoth : FS :=
  { files := [["index", "faiss_index.faiss"], ["index", "faiss_index.pkl"]],
    dirs := [[], ["index"]], stuck := [] }

/-- Witness for C4 at a concrete wellformed filesystem. -/
theorem index_exists_iff_both_files_witness :
    idxUnloaded.index_exists fsBoth = true ↔
      (fsBoth.pathExists idxUnloaded.faissFile = true ∧
       fsBoth.pathExists idxUnloaded.pklFile = true) :=
  index_exists_iff_both_files idxUnloaded fsBoth (by decide)

/-- C9: for every directory scan, the sources of the returned document
units are exactly the filenames that were processed successfully, in
listing order (exactly one unit per processed file, tagged with its
filename); each returned unit carries non-whitespace text; a file whose
extraction raises, and a file whose joined text strips to nothing, are
excluded; and a failing file never affects the units built from the
remaining files. -/
theorem load_pdfs_unit_per_processed_file (extractOf : String → ExtractOutcome)
    (listing : List String) :
    ((load_pdfs extractOf listing).map (fun d => d.source)
        = listing.filter (fun f => (processPdfFile extractOf f).isSome)) ∧
    (∀ f d, processPdfFile extractOf f = some d →
        d.source = f ∧ pyStrip d.page_content ≠ "") ∧
    (∀ f, extractOf f = .failed → processPdfFile extractOf f = none) ∧
    (∀ f ps, extractOf f = .pages ps →
        pyStrip (pyJoin "\n" (ps.filter (fun p => p ≠ ""))) = "" →
        processPdfFile extractOf f = none) ∧
    (∀ before f after, processPdfFile extractOf f = none →
        load_pdfs extractOf (before ++ f :: after)
          = load_pdfs extractOf (before ++ after)) := by
  have hproc : ∀ f d, processPdfFile extractOf f = some d →
      d.source = f ∧ pyStrip d.page_content ≠ "" := by
    intro f d hfd
    unfold processPdfFile at hfd
    split at hfd
    · split at hfd
      · cases hfd
      · split at hfd
        · cases hfd
        · split at hfd
          · cases hfd
          · rename_i hstrip
            cases hfd
            exact ⟨rfl, hstrip⟩
    · cases hfd
  refine ⟨?_, hproc, ?_, ?_, ?_⟩
  · induction listing with
    | nil => simp [load_pdfs]
    | cons f rest ih =>
      cases hpf : processPdfFile extractOf f with
      | none =>
        simpa [load_pdfs, List.filterMap_cons, List.filter_cons, hpf] using ih
      | some d =>
        have hsrc := (hproc f d hpf).1
        simp only [load_pdfs, List.filterMap_cons, List.filter_cons, hpf,
          Option.isSome_some, List.map_cons, if_pos] at ih ⊢
        simpa [hsrc] using ih
  · intro f hfail
    simp [processPdfFile, hfail]
  · intro f ps hpages hstrip
    simp [processPdfFile, hpages]
    intros
    simpa using hstrip
  · intro before f after hnone
    simp [load_pdfs, List.filterMap_append, List.filterMap_cons, hnone]

/-- The extraction oracle of the C9 witness: one good PDF, one PDF
whose parse raises, one whitespace-only PDF. -/
def extractSample : String → ExtractOutcome := fun f =>
  if f = "a.pdf" then .pages ["The quick brown fox", ""]
  else if f = "bad.pdf" then .failed
  else if f = "blank.pdf" then .pages ["   ", " "]
  else .pages ["Quantum entanglement"]

/-- The directory listing of the C9 witness. -/
def listingSample : List String :=
  ["a.pdf", "bad.pdf", "blank.pdf", "notes.txt", "b.PDF"]

/-- Witness for C9 at a concrete listing and extraction oracle. -/
theorem load_pdfs_unit_per_processed_file_witness :
    ((load_pdfs extractSample listingSample).map (fun d => d.source)
        = listingSample.filter (fun f => (processPdfFile extractSample f).isSome)) ∧
    (load_pdfs extractSample (["a.pdf"] ++ "bad.pdf" :: ["b.PDF"])
        = load_pdfs extractSample (["a.pdf"] ++ ["b.PDF"])) :=
  ⟨(load_pdfs_unit_per_processed_file extractSample listingSample).1,
   (load_pdfs_unit_per_processed_file extractSample listingSample).2.2.2.2
     ["a.pdf"] "bad.pdf" ["b.PDF"] (by decide)⟩

/-- C5: for every source directory with zero eligible (.pdf) files,
rebuild returns the failure outcome False, leaves `index_exists` false
with no partial index behind, and the try-block completes with the
boolean False rather than an exception reaching the call boundary
(every exception inside is caught and converted to a boolean by
rebuild_index). -/
theorem rebuild_empty_source_fails (idx : Indexer) (env : Env)
    (extractOf : String → ExtractOutcome) (fs : FS)
    (hnopdf : anyEligiblePdf env.pdfListing = false)
    (hnodup : fs.files.Nodup)
    (hFd : idx.faissFile ∉ fs.dirs) (hPd : idx.pklFile ∉ fs.dirs)
    (hFs : idx.faissFile ∉ fs.stuck) (hPs : idx.pklFile ∉ fs.stuck) :
    (idx.rebuild_index env extractOf fs).1 = false ∧
    idx.index_exists (idx.rebuild_index env extractOf fs).2.2 = false ∧
    (idx.rebuildBody env extractOf fs).1 = .ok false := by
  obtain ⟨fs2, hrem, hFnot, hdirs2⟩ :
      ∃ fs2, idx.removeExistingIndex fs = (.ok (), fs2) ∧
        idx.faissFile ∉ fs2.files ∧ fs2.dirs = fs.dirs := by
    by_cases hFpe : fs.pathExists idx.faissFile = true
    · have hstep1 := FS.removeOne_pos_ok fs _ hFpe hFs hFd
      have hFgone : idx.faissFile ∉ (fs.removeFile idx.faissFile).files :=
        hnodup.not_mem_erase
      by_cases hPpe : (fs.removeFile idx.faissFile).pathExists idx.pklFile = true
      · refine ⟨(fs.removeFile idx.faissFile).removeFile idx.pklFile, ?_, ?_, rfl⟩
        · unfold Indexer.removeExistingIndex
          rw [hstep1]
          change (fs.removeFile idx.faissFile).removeOne idx.pklFile = _
          exact FS.removeOne_pos_ok _ _ hPpe hPs hPd
        · intro hc
          exact hFgone (List.mem_of_mem_erase hc)
      · refine ⟨fs.removeFile idx.faissFile, ?_, hFgone, rfl⟩
        unfold Indexer.removeExistingIndex
        rw [hstep1]
        change (fs.removeFile idx.faissFile).removeOne idx.pklFile = _
        exact FS.removeOne_neg _ _ (by simpa using hPpe)
    · have hstep1 := FS.removeOne_neg fs _ (by simpa using hFpe)
      have hFnot0 : idx.faissFile ∉ fs.files := by
        have h : fs.pathExists idx.faissFile = false := by simpa using hFpe
        simp [FS.pathExists, FS.fileIs, FS.isDir] at h
        exact h.1
      by_cases hPpe : fs.pathExists idx.pklFile = true
      · refine ⟨fs.removeFile idx.pklFile, ?_, ?_, rfl⟩
        · unfold Indexer.removeExistingIndex
          rw [hstep1]
          change fs.removeOne idx.pklFile = _
          exact FS.removeOne_pos_ok _ _ hPpe hPs hPd
        · intro hc
          exact hFnot0 (List.mem_of_mem_erase hc)
      · refine ⟨fs, ?_, hFnot0, rfl⟩
        unfold Indexer.removeExistingIndex
        rw [hstep1]
        change fs.removeOne idx.pklFile = _
        exact FS.removeOne_neg _ _ (by simpa using hPpe)
  have hbody : idx.rebuildBody env extractOf fs = (.ok false, (idx, fs2)) := by
    unfold Indexer.rebuildBody
    rw [hrem]
    simp [hnopdf]
  have hFd2 : idx.faissFile ∉ fs2.dirs := by
    rw [hdirs2]; exact hFd
  refine ⟨by simp [Indexer.rebuild_index, hbody], ?_, by rw [hbody]⟩
  have hsnd : (idx.rebuild_index env extractOf fs).2.2 = fs2 := by
    simp [Indexer.rebuild_index, hbody]
  rw [hsnd]
  simp [Indexer.index_exists, FS.pathExists, FS.fileIs, FS.isDir, hFnot, hFd2]

/-- The search environment of the C5 witness: a source directory with
no eligible PDF file. -/
def envNoPdf : Env :=
  { score := fun _ _ => 0, searchFails := fun _ => false,
    pdfDirectory := ["pdfs"], pdfListing := ["notes.txt", "readme.md"] }

/-- Witness for C5 at a concrete filesystem holding a complete index. -/
theorem rebuild_empty_source_fails_witness :
    (idxUnloaded.rebuild_index envNoPdf extractSample fsBoth).1 = false ∧
    idxUnloaded.index_exists
      (idxUnloaded.rebuild_index envNoPdf extractSample fsBoth).2.2 = false ∧
    (idxUnloaded.rebuildBody envNoPdf extractSample fsBoth).1 = .ok false :=
  rebuild_empty_source_fails idxUnloaded envNoPdf extractSample fsBoth
    (by decide) (by decide) (by decide) (by decide) (by decide) (by decide)

/-- C10: removal of the index artifacts treats the two files
independently and deletes each only if present: with the vector file
absent, the present metadata file is deleted and removal completes; with
the metadata file absent, the present vector file is deleted and removal
completes; an error outcome is always the OSError (IOError) of deleting
an actually-present stuck file; and a failure on the vector file aborts
the removal with the filesystem untouched. -/
theorem remove_index_independent_halves (idx : Indexer) (fs : FS)
    (hFd : idx.faissFile ∉ fs.dirs) (hPd : idx.pklFile ∉ fs.dirs) :
    (fs.pathExists idx.faissFile = false → idx.pklFile ∈ fs.files →
        idx.pklFile ∉ fs.stuck →
        idx.removeExistingIndex fs = (.ok (), fs.removeFile idx.pklFile)) ∧
    (idx.faissFile ∈ fs.files → idx.faissFile ∉ fs.stuck →
        fs.pathExists idx.pklFile = false →
        idx.removeExistingIndex fs = (.ok (), fs.removeFile idx.faissFile)) ∧
    (∀ e fs1, idx.removeExistingIndex fs = (.error e, fs1) →
        e = .osError ∧
        ((fs.pathExists idx.faissFile = true ∧ idx.faissFile ∈ fs.stuck) ∨
         (fs.pathExists idx.pklFile = true ∧ idx.pklFile ∈ fs.stuck))) ∧
    (idx.faissFile ∈ fs.files → idx.faissFile ∈ fs.stuck →
        idx.removeExistingIndex fs = (.error .osError, fs)) := by
  have hne := idx.faissFile_ne_pklFile
  refine ⟨?_, ?_, ?_, ?_⟩
  · intro hFabs hPmem hPstuck
    have hPpe : fs.pathExists idx.pklFile = true := by
      simp [FS.pathExists, FS.fileIs, hPmem]
    simp [Indexer.removeExistingIndex, FS.removeOne, hFabs, hPpe, hPstuck, hPd]
  · intro hFmem hFstuck hPabs
    have hPnm : idx.pklFile ∉ fs.files ∧ idx.pklFile ∉ fs.dirs := by
      simpa [FS.pathExists, FS.fileIs, FS.isDir] using hPabs
    have hPnot : idx.pklFile ∉ fs.files.erase idx.faissFile := fun hc =>
      hPnm.1 (List.mem_of_mem_erase hc)
    simp [Indexer.removeExistingIndex, FS.removeOne, FS.pathExists, FS.fileIs,
      FS.isDir, FS.removeFile, hFmem, hFstuck, hFd, hPnot, hPnm.2]
  · intro e fs1 herr
    have hPmem_iff : idx.pklFile ∈ fs.files.erase idx.faissFile ↔ idx.pklFile ∈ fs.files :=
      List.mem_erase_of_ne (Ne.symm hne)
    unfold Indexer.removeExistingIndex at herr
    by_cases hFpe : fs.pathExists idx.faissFile = true
    · by_cases hFstuck : idx.faissFile ∈ fs.stuck
      · rw [fs.removeOne_pos_stuck _ hFpe hFstuck] at herr
        injection herr with h1 h2
        injection h1 with h1
        exact ⟨h1.symm, .inl ⟨hFpe, hFstuck⟩⟩
      · rw [fs.removeOne_pos_ok _ hFpe hFstuck hFd] at herr
        change (fs.removeFile idx.faissFile).removeOne idx.pklFile
            = (.error e, fs1) at herr
        by_cases hPmem : idx.pklFile ∈ fs.files
        · have hPpe : (fs.removeFile idx.faissFile).pathExists idx.pklFile = true := by
            simp [FS.pathExists, FS.fileIs, FS.removeFile, hPmem_iff.mpr hPmem]
          by_cases hPstuck : idx.pklFile ∈ fs.stuck
          · rw [FS.removeOne_pos_stuck _ _ hPpe (by simpa [FS.removeFile] using hPstuck)] at herr
            injection herr with h1 h2
            injection h1 with h1
            exact ⟨h1.symm, .inr ⟨by simp [FS.pathExists, FS.fileIs, hPmem], hPstuck⟩⟩
          · rw [FS.removeOne_pos_ok _ _ hPpe (by simpa [FS.removeFile] using hPstuck)
              (by simpa [FS.removeFile] using hPd)] at herr
            injection herr with h1 h2
            exact Except.noConfusion h1
        · have hPnot : idx.pklFile ∉ fs.files.erase idx.faissFile := fun hc =>
            hPmem (hPmem_iff.mp hc)
          have hPpe : (fs.removeFile idx.faissFile).pathExists idx.pklFile = false := by
            simp only [FS.pathExists, FS.fileIs, FS.isDir, FS.removeFile]
            simp [hPnot, hPd]
          rw [FS.removeOne_neg _ _ hPpe] at herr
          injection herr with h1 h2
          exact Except.noConfusion h1
    · rw [fs.removeOne_neg _ (by simpa using hFpe)] at herr
      change fs.removeOne idx.pklFile = (.error e, fs1) at herr
      by_cases hPmem : idx.pklFile ∈ fs.files
      · have hPpe : fs.pathExists idx.pklFile = true := by
          simp [FS.pathExists, FS.fileIs, hPmem]
        by_cases hPstuck : idx.pklFile ∈ fs.stuck
        · rw [fs.removeOne_pos_stuck _ hPpe hPstuck] at herr
          injection herr with h1 h2
          injection h1 with h1
          exact ⟨h1.symm, .inr ⟨hPpe, hPstuck⟩⟩
        · rw [fs.removeOne_pos_ok _ hPpe hPstuck hPd] at herr
          injection herr with h1 h2
          exact Except.noConfusion h1
      · have hPpe : fs.pathExists idx.pklFile = false := by
          simp [FS.pathExists, FS.fileIs, FS.isDir, hPmem, hPd]
        rw [fs.removeOne_neg _ hPpe] at herr
        injection herr with h1 h2
        exact Except.noConfusion h1
  · intro hFmem hFstuck
    have hFpe : fs.pathExists idx.faissFile = true := by
      simp [FS.pathExists, FS.fileIs, hFmem]
    simp [Indexer.removeExistingIndex, FS.removeOne, hFpe, hFstuck]

/-- A filesystem holding only the metadata (.pkl) artifact. -/
def fsOnlyPkl : FS :=
  { files := [["index", "faiss_index.pkl"]], dirs := [[], ["index"]], stuck := [] }

/-- Witness for C10: with only the metadata file present, removal skips
the missing vector file, deletes the metadata file and completes. -/
theorem remove_index_independent_halves_witness :
    idxUnloaded.removeExistingIndex fsOnlyPkl
      = (.ok (), fsOnlyPkl.removeFile idxUnloaded.pklFile) :=
  (remove_index_independent_halves idxUnloaded fsOnlyPkl (by decide) (by decide)).1
    (by decide) (by decide) (by decide)

end DocFinder
